import Mathlib

/-!
# Image storytelling front end (`frontend/app.js`)

A shallow embedding of the browser script: the two module variables
(`selectedImage`, `cameraStream`), the properties of the page elements the
script reads or writes, and the part of the browser the script talks to
(media streams and their tracks, pending asynchronous operations, the log of
analysis requests).

Every event handler of the script is a function on `AppState`.  A handler
that suspends at an `await` or registers a callback is split at that point:
the first half records the pending operation, the second half is the handler
of the event that completes it (`onCameraGranted`, `onCaptureBlob`,
`onReaderLoad`, `onAnalyzeSettled`).  An exception that escapes a handler
ends that handler; the assignments made before it persist.

Element lookups are taken to succeed (the page provides every element the
script asks for).  Strings are sequences of Unicode scalar values.  The
properties of the `results` object are arbitrary JSON values (`JsVal`), so
the statements of `displayResults` that throw on a value that is not a string
are part of the embedding.  The canvas
drawing of the capture handler, scrolling and the console output are not part
of the state; the handlers that only open the file picker and the health
check at load, which only logs, change nothing in it and have no event.
-/

namespace ImageStory

/-! ## Values -/

/-- A `File` or `Blob`: its MIME type and the data URL `readAsDataURL` yields for it. -/
structure Blob where
  type : String
  dataUrl : String
  deriving DecidableEq, Repr

/-- A value read from the parsed response: `undefined` for an absent property,
or a JSON value. A number is given by its string conversion (JSON has no
`NaN`, so "0" is the only falsy one); an object by its own properties. -/
inductive JsVal
  | undefined
  | null
  | bool (b : Bool)
  | num (text : String)
  | str (s : String)
  | arr (items : List JsVal)
  | obj (members : List (String × JsVal))

/-- The properties `displayResults` reads from `results`. -/
structure Results where
  caption : JsVal
  summary : JsVal
  objects : JsVal
  mood : JsVal
  story : JsVal

/-- The value of `data.results`: absent, `null`, or any other value with the
five properties read from it. -/
inductive ResultsField
  | undefined
  | null
  | object (r : Results)

/-- What `response.json()` settles with: a rejection, JSON `null`, or any other
value with its `error` and `results` properties. -/
inductive Body
  | unparseable (message : String)
  | null
  | value (error : Option String) (results : ResultsField)

/-- How the `fetch` of an analysis request settles. -/
inductive FetchOutcome
  | networkError (message : String)
  | response (ok : Bool) (body : Body)

/-- The content of the objects element: assigned as text or as markup. -/
inductive Content
  | text (s : String)
  | html (s : String)
  deriving DecidableEq, Repr

/-- What depends on the browser: the messages of the `TypeError`s the engine
raises, and the resolution of URLs against the document. -/
structure Engine where
  /-- A property is read from `null` (`true`) or `undefined` (`false`). -/
  nullishRead : Bool → String → String
  /-- The expression called is not a function. -/
  notFunction : String → String
  /-- An object has no string conversion. -/
  notPrimitive : String
  /-- The URL the `src` property of an image gives for the value of its `src`
  attribute. -/
  resolveUrl : String → String

/-- The messages of V8, in a document at `http://localhost:8000/`. The examples
use data URLs only, which resolve to themselves; the empty value resolves to
the URL of the document. -/
def v8 : Engine where
  nullishRead isNull prop :=
    "Cannot read properties of " ++ (if isNull then "null" else "undefined") ++
      " (reading '" ++ prop ++ "')"
  notFunction callee := callee ++ " is not a function"
  notPrimitive := "Cannot convert object to primitive value"
  resolveUrl value := if value = "" then "http://localhost:8000/" else value

/-! ## State -/

/-- The state of the page and of the script. -/
structure AppState where
  /-- Module variable `selectedImage`. -/
  selectedImage : Option Blob
  /-- Module variable `cameraStream`: the index of the stream in `streams`. -/
  cameraStream : Option Nat
  /-- Attribute `data-theme` of the document element. -/
  theme : Option String
  /-- Entry `theme` of `localStorage`. -/
  storedTheme : Option String
  /-- Tab buttons carrying the class `active` (by `data-tab`). -/
  activeTabBtns : List String
  /-- Tab panels carrying the class `active` (by id). -/
  activeTabContents : List String
  /-- Class `drag-over` of the dropzone. -/
  dragOver : Bool
  fileInputValue : String
  cameraVideoSrc : Option Nat
  cameraVideoHidden : Bool
  startCameraBtnHidden : Bool
  captureBtnHidden : Bool
  stopCameraBtnHidden : Bool
  imagePreviewHidden : Bool
  /-- Attribute `src` of the preview image, `none` while it has none. -/
  previewImgSrc : Option String
  loadingHidden : Bool
  resultsHidden : Bool
  errorHidden : Bool
  errorMessage : String
  /-- Attribute `src` of the analyzed image, `none` while it has none. -/
  analyzedImageSrc : Option String
  resultCaption : String
  resultSummary : String
  resultObjects : Content
  resultMood : String
  resultStory : String
  /-- Every media stream obtained so far; per track, whether it is still live. -/
  streams : List (List Bool)
  /-- Number of calls of `track.stop()` so far. -/
  stopCalls : Nat
  /-- Calls of `getUserMedia` that have not settled. -/
  pendingCamera : Nat
  /-- Calls of `canvas.toBlob` whose callback has not run. -/
  pendingCapture : Nat
  /-- Blobs being read by a `FileReader`. -/
  pendingReads : List Blob
  /-- Analysis requests whose response has not arrived (the image of each). -/
  pendingFetch : List Blob
  /-- Every analysis request issued so far. -/
  requests : List Blob
  deriving DecidableEq, Repr

/-- Result of a function that may throw: the state reached, and the message of
the exception if one was thrown. -/
inductive Outcome
  | done (s : AppState)
  | threw (s : AppState) (message : String)
  deriving DecidableEq, Repr

/-! ## Strings -/

/-- White space and line terminators, the characters `String.prototype.trim` strips. -/
def isJsWhiteSpace (c : Char) : Bool :=
  let n := c.toNat
  n == 0x09 || n == 0x0A || n == 0x0B || n == 0x0C || n == 0x0D || n == 0x20 ||
  n == 0xA0 || n == 0x1680 || (0x2000 ≤ n && n ≤ 0x200A) || n == 0x2028 ||
  n == 0x2029 || n == 0x202F || n == 0x205F || n == 0x3000 || n == 0xFEFF

/-- The method `trim`. -/
def trim (s : List Char) : List Char :=
  ((s.dropWhile isJsWhiteSpace).reverse.dropWhile isJsWhiteSpace).reverse

/-- The method `split` with a one-character separator. -/
def split (sep : Char) : List Char → List (List Char)
  | [] => [[]]
  | c :: cs =>
    if c = sep then [] :: split sep cs
    else
      match split sep cs with
      | [] => [[c]]
      | l :: ls => (c :: l) :: ls

/-- The method `includes` with a one-character argument. -/
def includes (s : String) (c : Char) : Bool :=
  s.toList.contains c

/-- The expression `v || d` for a property that is absent or a string: the empty
string is falsy. -/
def jsOr (v : Option String) (d : String) : String :=
  match v with
  | some s => if s = "" then d else s
  | none => d

/-- Truthiness of a string. -/
def truthy (s : List Char) : Bool :=
  !s.isEmpty

/-- Truthiness of a value. -/
def JsVal.truthy : JsVal → Bool
  | .undefined => false
  | .null => false
  | .bool b => b
  | .num text => text != "0"
  | .str s => s != ""
  | .arr _ => true
  | .obj _ => true

/-- Whether a value is `null` or `undefined`. -/
def JsVal.isNullish : JsVal → Bool
  | .undefined => true
  | .null => true
  | _ => false

/-- The text of an array element followed by the text of the rest: a comma
stands between them when there is a rest. -/
def joinStep (rest : List JsVal) (a b : String) : String :=
  match rest with
  | [] => a
  | _ :: _ => a ++ "," ++ b

mutual
/-- String conversion of a value, `none` when it throws: an array joins the
conversions of its elements with commas, `null` elements giving the empty
string; an object is "[object Object]" unless an own property `toString`
hides the inherited method. -/
def JsVal.toText : JsVal → Option String
  | .undefined => some "undefined"
  | .null => some "null"
  | .bool b => some (if b then "true" else "false")
  | .num text => some text
  | .str s => some s
  | .arr items => JsVal.joinText items
  | .obj members =>
    if members.any (fun m => m.1 == "toString") then none else some "[object Object]"
termination_by structural v => v
/-- The method `join` of an array, with the comma as separator. -/
def JsVal.joinText : List JsVal → Option String
  | [] => some ""
  | v :: vs =>
    match (if v.isNullish then some "" else JsVal.toText v), JsVal.joinText vs with
    | some a, some b => some (joinStep vs a b)
    | _, _ => none
termination_by structural l => l
end

/-- The call `v.includes(c)` for a one-character string `c`: the search in a
string, the membership in an array, `none` when `v.includes` is not a function. -/
def callIncludes (v : JsVal) (c : Char) : Option Bool :=
  match v with
  | .str s => some (includes s c)
  | .arr items =>
    some (items.any (fun item =>
      match item with
      | .str t => t == String.singleton c
      | _ => false))
  | _ => none

/-- The lines kept by `.split('\n').filter(line => line.trim())`. -/
def objectLines (objects : String) : List String :=
  ((split '\n' objects.toList).filter (fun line => truthy (trim line))).map String.mk

/-- The markup built for a bulleted objects text. -/
def objectsMarkup (objects : String) : String :=
  String.join ((objectLines objects).map (fun line => "<div>" ++ line ++ "</div>"))

/-! ## Functions of the script -/

/-- Function `initTheme`. -/
def initTheme (s : AppState) : AppState :=
  { s with theme := some (jsOr s.storedTheme "dark") }

/-- Function `stopCamera`. -/
def stopCamera (s : AppState) : AppState :=
  let s1 :=
    match s.cameraStream with
    | some i =>
      { s with
        streams := s.streams.set i ((s.streams.getD i []).map (fun _ => false))
        stopCalls := s.stopCalls + (s.streams.getD i []).length
        cameraStream := none }
    | none => s
  { s1 with
    cameraVideoSrc := none
    cameraVideoHidden := true
    startCameraBtnHidden := false
    captureBtnHidden := true
    stopCameraBtnHidden := true }

/-- Function `handleImageFile`, up to the call of `readAsDataURL`, which throws
when its argument is not a blob. The flag tells whether the function returned. -/
def handleImageFile (s : AppState) (file : Option Blob) : AppState × Bool :=
  let s1 := { s with selectedImage := file }
  match file with
  | some f => ({ s1 with pendingReads := s1.pendingReads ++ [f] }, true)
  | none => (s1, false)

/-- The `onload` callback that `handleImageFile` installs on its reader. -/
def onReaderLoad (s : AppState) (result : String) : AppState :=
  { s with
    previewImgSrc := some result
    imagePreviewHidden := false
    resultsHidden := true
    errorHidden := true }

/-- Function `clearImage`. -/
def clearImage (s : AppState) : AppState :=
  { s with
    selectedImage := none
    imagePreviewHidden := true
    previewImgSrc := some ""
    fileInputValue := "" }

/-- Function `showError`. -/
def showError (s : AppState) (message : String) : AppState :=
  { s with
    errorMessage := message
    errorHidden := false
    loadingHidden := true
    resultsHidden := true }

/-- The state an outcome ends in. -/
def Outcome.state : Outcome → AppState
  | .done s => s
  | .threw s _ => s

/-- Sequencing of two steps: the second runs when the first did not throw. -/
def Outcome.bind (o : Outcome) (f : AppState → Outcome) : Outcome :=
  match o with
  | .done s => f s
  | .threw s m => .threw s m

/-- The property `src` of an image whose attribute is `attr`. -/
def reflectSrc (e : Engine) (attr : Option String) : String :=
  match attr with
  | some value => e.resolveUrl value
  | none => ""

/-- The statement `element.textContent = v || 'N/A'`; `write` stores the text
in the element. The assignment converts a value that is not a string, which
can throw. -/
def assignText (e : Engine) (v : JsVal) (write : AppState → String → AppState)
    (s : AppState) : Outcome :=
  if v.truthy then
    match v.toText with
    | some t => .done (write s t)
    | none => .threw s e.notPrimitive
  else .done (write s "N/A")

/-- The statement of `displayResults` that fills the objects element. -/
def assignObjects (e : Engine) (v : JsVal) (s : AppState) : Outcome :=
  if v.truthy then
    match callIncludes v '-', callIncludes v '•' with
    | some hyphen, some bullet =>
      if hyphen || bullet then
        match v with
        | .str objects => .done { s with resultObjects := .html (objectsMarkup objects) }
        | _ => .threw s (e.notFunction "results.objects.split")
      else
        match v.toText with
        | some t => .done { s with resultObjects := .text t }
        | none => .threw s e.notPrimitive
    | _, _ => .threw s (e.notFunction "results.objects.includes")
  else .done { s with resultObjects := .text "N/A" }

/-- Function `displayResults`. -/
def displayResults (e : Engine) (s : AppState) (results : ResultsField) : Outcome :=
  let s1 := { s with analyzedImageSrc := some (reflectSrc e s.previewImgSrc) }
  match results with
  | .undefined => .threw s1 (e.nullishRead false "caption")
  | .null => .threw s1 (e.nullishRead true "caption")
  | .object r =>
    (((((assignText e r.caption (fun s t => { s with resultCaption := t }) s1).bind
      (assignText e r.summary (fun s t => { s with resultSummary := t }))).bind
      (assignText e r.mood (fun s t => { s with resultMood := t }))).bind
      (assignText e r.story (fun s t => { s with resultStory := t }))).bind
      (assignObjects e r.objects)).bind
      (fun s => .done { s with resultsHidden := false })

/-! ## Event handlers -/

/-- The method `startsWith`. -/
def startsWith (s p : String) : Bool :=
  p.toList.isPrefixOf s.toList

/-- Click handler of the theme toggle. -/
def onThemeToggleClick (s : AppState) : AppState :=
  let newTheme := if s.theme = some "dark" then "light" else "dark"
  { s with theme := some newTheme, storedTheme := some newTheme }

/-- Click handler of the tab button whose `data-tab` is `tabName`. -/
def onTabClick (s : AppState) (tabName : String) : AppState :=
  let s1 := { s with activeTabBtns := [tabName], activeTabContents := [tabName ++ "-tab"] }
  if tabName != "camera" && s1.cameraStream.isSome then stopCamera s1 else s1

/-- Change handler of the file input; `value` is the value the browser gave the
input, `file` is `e.target.files[0]`. -/
def onFileInputChange (s : AppState) (value : String) (file : Option Blob) : AppState :=
  let s1 := { s with fileInputValue := value }
  match file with
  | some f => (handleImageFile s1 (some f)).1
  | none => s1

/-- Handler of `dragover` on the dropzone. -/
def onDragOver (s : AppState) : AppState :=
  { s with dragOver := true }

/-- Handler of `dragleave` on the dropzone. -/
def onDragLeave (s : AppState) : AppState :=
  { s with dragOver := false }

/-- Handler of `drop` on the dropzone; `file` is `e.dataTransfer.files[0]`. -/
def onDrop (s : AppState) (file : Option Blob) : AppState :=
  let s1 := { s with dragOver := false }
  match file with
  | some f =>
    if startsWith f.type "image/" then (handleImageFile s1 (some f)).1
    else showError s1 "Please drop a valid image file"
  | none => showError s1 "Please drop a valid image file"

/-- Click handler of the start-camera button, up to the `await`. -/
def onStartCameraClick (s : AppState) : AppState :=
  { s with pendingCamera := s.pendingCamera + 1 }

/-- Rest of the start-camera handler when `getUserMedia` resolves with a stream
of `tracks` tracks. -/
def onCameraGranted (s : AppState) (tracks : Nat) : AppState :=
  { s with
    cameraStream := some s.streams.length
    streams := s.streams ++ [List.replicate tracks true]
    cameraVideoSrc := some s.streams.length
    cameraVideoHidden := false
    startCameraBtnHidden := true
    captureBtnHidden := false
    stopCameraBtnHidden := false }

/-- Rest of the start-camera handler when `getUserMedia` rejects. -/
def onCameraDenied (s : AppState) (message : String) : AppState :=
  showError s ("Failed to access camera: " ++ message)

/-- Click handler of the capture button, up to the call of `toBlob`. -/
def onCaptureClick (s : AppState) : AppState :=
  { s with pendingCapture := s.pendingCapture + 1 }

/-- The callback the capture handler passes to `toBlob`. -/
def onCaptureBlob (s : AppState) (blob : Option Blob) : AppState :=
  match handleImageFile s blob with
  | (s1, true) => stopCamera s1
  | (s1, false) => s1

/-- Click handler of the analyze button, up to the `await` of `fetch`. -/
def onAnalyzeClick (s : AppState) : AppState :=
  match s.selectedImage with
  | none => showError s "Please select an image first"
  | some image =>
    { s with
      imagePreviewHidden := true
      loadingHidden := false
      resultsHidden := true
      errorHidden := true
      pendingFetch := s.pendingFetch ++ [image]
      requests := s.requests ++ [image] }

/-- The `try` block of the analyze handler after the `await` of `fetch`. -/
def analyzeTry (e : Engine) (s : AppState) : FetchOutcome → Outcome
  | .networkError m => .threw s m
  | .response _ (.unparseable m) => .threw s m
  | .response false .null => .threw s (e.nullishRead true "error")
  | .response false (.value error _) => .threw s (jsOr error "Analysis failed")
  | .response true .null => .threw s (e.nullishRead true "results")
  | .response true (.value _ results) => displayResults e s results

/-- Rest of the analyze handler once the request has settled: the `try` block,
the `catch` block and the `finally` block. -/
def onAnalyzeSettled (e : Engine) (s : AppState) (outcome : FetchOutcome) : AppState :=
  let s1 :=
    match analyzeTry e s outcome with
    | .done s1 => s1
    | .threw s1 m => showError s1 m
  { s1 with loadingHidden := true }

/-- Click handler of the retry button. -/
def onRetryClick (s : AppState) : AppState :=
  { s with errorHidden := true, imagePreviewHidden := false }

/-- Click handler of the new-analysis button. -/
def onNewAnalysisClick (s : AppState) : AppState :=
  { clearImage s with resultsHidden := true }

/-! ## The page as a transition system -/

/-- What can happen to the page: user actions and completions of pending
operations. -/
inductive Event
  | themeToggleClick
  | tabClick (tabName : String)
  | fileInputChange (value : String) (file : Option Blob)
  | dragOver
  | dragLeave
  | drop (file : Option Blob)
  | startCameraClick
  | cameraGranted (tracks : Nat)
  | cameraDenied (message : String)
  | captureClick
  | captureBlob (blob : Option Blob)
  | stopCameraClick
  | readerLoad (i : Nat)
  | readerFailed (i : Nat)
  | clearImageClick
  | analyzeClick
  | analyzeSettled (i : Nat) (outcome : FetchOutcome)
  | retryClick
  | newAnalysisClick

/-- Whether an event is a click on the analyze button. -/
def Event.isAnalyzeClick : Event → Bool
  | .analyzeClick => true
  | _ => false

/-- Handling of one event. The completion of an operation that is not pending
cannot happen and leaves the state as it is. -/
def step (e : Engine) (s : AppState) : Event → AppState
  | .themeToggleClick => onThemeToggleClick s
  | .tabClick tabName => onTabClick s tabName
  | .fileInputChange value file => onFileInputChange s value file
  | .dragOver => onDragOver s
  | .dragLeave => onDragLeave s
  | .drop file => onDrop s file
  | .startCameraClick => onStartCameraClick s
  | .cameraGranted tracks =>
    if s.pendingCamera = 0 then s
    else onCameraGranted { s with pendingCamera := s.pendingCamera - 1 } tracks
  | .cameraDenied message =>
    if s.pendingCamera = 0 then s
    else onCameraDenied { s with pendingCamera := s.pendingCamera - 1 } message
  | .captureClick => onCaptureClick s
  | .captureBlob blob =>
    if s.pendingCapture = 0 then s
    else onCaptureBlob { s with pendingCapture := s.pendingCapture - 1 } blob
  | .stopCameraClick => stopCamera s
  | .readerLoad i =>
    match s.pendingReads[i]? with
    | some f => onReaderLoad { s with pendingReads := s.pendingReads.eraseIdx i } f.dataUrl
    | none => s
  | .readerFailed i => { s with pendingReads := s.pendingReads.eraseIdx i }
  | .clearImageClick => clearImage s
  | .analyzeClick => onAnalyzeClick s
  | .analyzeSettled i outcome =>
    match s.pendingFetch[i]? with
    | some _ => onAnalyzeSettled e { s with pendingFetch := s.pendingFetch.eraseIdx i } outcome
    | none => s
  | .retryClick => onRetryClick s
  | .newAnalysisClick => onNewAnalysisClick s

/-- Handling of a sequence of events. -/
def run (e : Engine) (s : AppState) (events : List Event) : AppState :=
  events.foldl (step e) s

/-- The state once the script has been evaluated on a page whose elements are
as `page` gives them: both module variables are `null`, `initTheme` has run,
no stream has been obtained and nothing is pending. -/
def init (page : AppState) : AppState :=
  initTheme { page with
    selectedImage := none
    cameraStream := none
    cameraVideoSrc := none
    streams := []
    stopCalls := 0
    pendingCamera := 0
    pendingCapture := 0
    pendingReads := []
    pendingFetch := []
    requests := [] }

/-- Modelled from the spec: the page markup is not among the sources. The
acquisition-ready page: upload tab active, every panel hidden, the camera
controls in their initial configuration (only the start button shown), no
text in any output element. -/
def idlePage : AppState where
  selectedImage := none
  cameraStream := none
  theme := none
  storedTheme := none
  activeTabBtns := ["upload"]
  activeTabContents := ["upload-tab"]
  dragOver := false
  fileInputValue := ""
  cameraVideoSrc := none
  cameraVideoHidden := true
  startCameraBtnHidden := false
  captureBtnHidden := true
  stopCameraBtnHidden := true
  imagePreviewHidden := true
  previewImgSrc := none
  loadingHidden := true
  resultsHidden := true
  errorHidden := true
  errorMessage := ""
  analyzedImageSrc := none
  resultCaption := ""
  resultSummary := ""
  resultObjects := .text ""
  resultMood := ""
  resultStory := ""
  streams := []
  stopCalls := 0
  pendingCamera := 0
  pendingCapture := 0
  pendingReads := []
  pendingFetch := []
  requests := []

/-- Number of analysis requests awaiting their response. -/
def outstanding (s : AppState) : Nat :=
  s.pendingFetch.length

/-- Whether stream `i` still has a live track. -/
def streamLive (s : AppState) (i : Nat) : Bool :=
  (s.streams.getD i []).any id

/-- An image used in the examples. -/
def dogJpeg : Blob where
  type := "image/jpeg"
  dataUrl := "data:image/jpeg;base64,ZG9n"

/-- Events in which the start-camera button is clicked only while no session
is open and no camera request is pending. -/
def exclusive (e : Engine) (s : AppState) : List Event → Bool
  | [] => true
  | .startCameraClick :: events =>
    s.cameraStream.isNone && s.pendingCamera == 0 &&
      exclusive e (step e s .startCameraClick) events
  | ev :: events => exclusive e (step e s ev) events

/-- Every stream obtained so far is the current `cameraStream` or has all its
tracks stopped. -/
def SingleSession (s : AppState) : Prop :=
  ∀ i, i < s.streams.length → s.cameraStream = some i ∨ streamLive s i = false

/-- What the single-session argument keeps true along a run: a stream other
than the current one has no live track, at most one camera request is
pending, and none is pending while a session is open. -/
structure CameraInv (s : AppState) : Prop where
  stopped : ∀ i, s.cameraStream ≠ some i → streamLive s i = false
  pending_le : s.pendingCamera ≤ 1
  idle : s.pendingCamera = 1 → s.cameraStream = none

/-- Another image used in the examples. -/
def treePng : Blob where
  type := "image/png"
  dataUrl := "data:image/png;base64,dHJlZQ=="

/-- The image `f` is the selected one, its preview is shown, and the results
and error panels are hidden. -/
def Acquired (s : AppState) (f : Blob) : Prop :=
  s.selectedImage = some f ∧ s.previewImgSrc = some f.dataUrl ∧ s.imagePreviewHidden = false ∧
  s.resultsHidden = true ∧ s.errorHidden = true

/-! ## Example inputs -/

/-- The results of the example response, without its `mood`. -/
def dogResults : Results where
  caption := .str "A dog"
  summary := .str "A dog in a park"
  objects := .str "- dog\n- tree"
  mood := .undefined
  story := .str "Once upon a time..."

/-- Results with the given `objects` and no other property. -/
def objectsOnly (objects : JsVal) : Results where
  caption := .undefined
  summary := .undefined
  objects := objects
  mood := .undefined
  story := .undefined

/-- What `displayResults` and the rest of the analyze handler leave as it is:
the selected image, the camera, and every pending operation. -/
def Untouched (s s' : AppState) : Prop :=
  s'.selectedImage = s.selectedImage ∧ s'.cameraStream = s.cameraStream ∧
  s'.streams = s.streams ∧ s'.stopCalls = s.stopCalls ∧
  s'.pendingCamera = s.pendingCamera ∧ s'.pendingCapture = s.pendingCapture ∧
  s'.pendingReads = s.pendingReads ∧ s'.pendingFetch = s.pendingFetch ∧
  s'.requests = s.requests

/-- A successful response carrying `dogResults`. -/
def dogResponse : FetchOutcome :=
  .response true (.value none (.object dogResults))

/-- Events that select `dogJpeg` through the file picker, let its preview
load, and submit it. -/
def submitDog : List Event :=
  [.fileInputChange "dog.jpg" (some dogJpeg), .readerLoad 0, .analyzeClick]

/-- A file that is not an image. -/
def notesTxt : Blob where
  type := "text/plain"
  dataUrl := "data:text/plain;base64,bm90ZXM="

/-- The page once `dogJpeg` has been submitted and the response is awaited. -/
def submitted : AppState :=
  run v8 (init idlePage) submitDog

/-- The page once the submission of `dogJpeg` has failed with 'invalid image'. -/
def failed : AppState :=
  run v8 submitted
    [.analyzeSettled 0 (.response false (.value (some "invalid image") .undefined))]

/-- The page once a camera session with one track is open and the capture
button has been clicked. -/
def capturing : AppState :=
  run v8 (init idlePage)
    [.tabClick "camera", .startCameraClick, .cameraGranted 1, .captureClick]

/-! ## Facts about the string functions -/

theorem split_ne_nil (sep : Char) (l : List Char) : split sep l ≠ [] := by
  induction l with
  | nil => simp [split]
  | cons c cs ih =>
    unfold split
    split_ifs
    · simp
    · cases h : split sep cs <;> simp

/-- Joining the pieces of `split` with the separator gives the text back. -/
theorem intercalate_split (sep : Char) (l : List Char) :
    [sep].intercalate (split sep l) = l := by
  induction l with
  | nil => simp [split, List.intercalate]
  | cons c cs ih =>
    unfold split
    split_ifs with hc
    · cases h : split sep cs with
      | nil => exact absurd h (split_ne_nil sep cs)
      | cons p ps =>
        rw [h] at ih
        simp only [List.intercalate, List.intersperse, List.flatten] at ih ⊢
        simp [hc, ih]
    · cases h : split sep cs with
      | nil => exact absurd h (split_ne_nil sep cs)
      | cons p ps =>
        rw [h] at ih
        cases ps with
        | nil => simpa [List.intercalate, List.intersperse] using ih
        | cons q qs =>
          simp only [List.intercalate, List.intersperse, List.flatten] at ih ⊢
          simpa using ih

/-- No piece of `split` contains the separator. -/
theorem not_mem_of_mem_split (sep : Char) (l p : List Char) (hp : p ∈ split sep l) :
    sep ∉ p := by
  induction l generalizing p with
  | nil => simp [split] at hp; simp [hp]
  | cons c cs ih =>
    unfold split at hp
    split_ifs at hp with hc
    · rcases List.mem_cons.1 hp with h | h
      · simp [h]
      · exact ih p h
    · cases h : split sep cs with
      | nil => exact absurd h (split_ne_nil sep cs)
      | cons q qs =>
        rw [h] at hp ih
        rcases List.mem_cons.1 hp with h1 | h1
        · subst h1
          have := ih q (List.mem_cons_self _ _)
          simp only [List.mem_cons, not_or]
          exact ⟨fun hh => hc hh.symm, this⟩
        · exact ih p (List.mem_cons_of_mem _ h1)

theorem dropWhile_all_iff (p : Char → Bool) (l : List Char) :
    (∀ x ∈ l.dropWhile p, p x = true) ↔ ∀ x ∈ l, p x = true := by
  induction l with
  | nil => simp
  | cons c cs ih =>
    by_cases hc : p c = true
    · simp [List.dropWhile, hc, ih]
    · simp [List.dropWhile, hc]

/-- A line survives the filter exactly when it has a character that is not white space. -/
theorem truthy_trim (l : List Char) :
    truthy (trim l) = l.any (fun c => !isJsWhiteSpace c) := by
  have h1 : trim l = [] ↔ ∀ x ∈ l, isJsWhiteSpace x = true := by
    unfold trim
    rw [List.reverse_eq_nil_iff, List.dropWhile_eq_nil_iff]
    simp only [List.mem_reverse]
    exact dropWhile_all_iff _ _
  by_cases h : ∀ x ∈ l, isJsWhiteSpace x = true
  · have h2 : l.any (fun c => !isJsWhiteSpace c) = false := by
      simp only [List.any_eq_false]
      intro x hx
      simp [h x hx]
    simp [truthy, h1.2 h, h2]
  · have h2 : l.any (fun c => !isJsWhiteSpace c) = true := by
      push_neg at h
      obtain ⟨x, hx, hx2⟩ := h
      simp only [List.any_eq_true]
      exact ⟨x, hx, by simpa using hx2⟩
    have h3 : trim l ≠ [] := fun hh => h (h1.1 hh)
    rw [h2]
    cases ht : trim l with
    | nil => exact absurd ht h3
    | cons a as => simp [truthy]

/-! ## Analysis without an image -/

/-- C1: when no image is selected, handling a click on the analyze button issues
no request (the log of requests and the outstanding requests are unchanged) and
ends with the error panel visible, showing 'Please select an image first', with
`selectedImage` still `null`. -/
theorem analyze_without_image (e : Engine) (s : AppState) (h : s.selectedImage = none) :
    (step e s .analyzeClick).requests = s.requests ∧
    (step e s .analyzeClick).pendingFetch = s.pendingFetch ∧
    (step e s .analyzeClick).errorHidden = false ∧
    (step e s .analyzeClick).errorMessage = "Please select an image first" ∧
    (step e s .analyzeClick).selectedImage = none := by
  simp [step, onAnalyzeClick, h, showError]

/-- C1 at the start of the idle page. -/
theorem analyze_without_image_witness :
    (init idlePage).selectedImage = none ∧
    (step v8 (init idlePage) .analyzeClick).requests = [] ∧
    (step v8 (init idlePage) .analyzeClick).errorHidden = false ∧
    (step v8 (init idlePage) .analyzeClick).errorMessage = "Please select an image first" :=
  have h := analyze_without_image v8 (init idlePage) rfl
  ⟨rfl, h.1, h.2.2.1, h.2.2.2.1⟩

/-! ## What the analyze handler leaves alone -/

theorem untouched_refl (s : AppState) : Untouched s s :=
  ⟨rfl, rfl, rfl, rfl, rfl, rfl, rfl, rfl, rfl⟩

theorem untouched_trans {s s' s'' : AppState} (h : Untouched s s') (h' : Untouched s' s'') :
    Untouched s s'' := by
  obtain ⟨a1, a2, a3, a4, a5, a6, a7, a8, a9⟩ := h
  obtain ⟨b1, b2, b3, b4, b5, b6, b7, b8, b9⟩ := h'
  exact ⟨b1.trans a1, b2.trans a2, b3.trans a3, b4.trans a4, b5.trans a5, b6.trans a6,
    b7.trans a7, b8.trans a8, b9.trans a9⟩

theorem bind_untouched {s : AppState} {o : Outcome} {f : AppState → Outcome}
    (ho : Untouched s o.state) (hf : ∀ s1, Untouched s1 (f s1).state) :
    Untouched s (o.bind f).state := by
  cases o with
  | done s1 => exact untouched_trans ho (hf s1)
  | threw s1 m => exact ho

theorem assignText_untouched (e : Engine) (v : JsVal) (write : AppState → String → AppState)
    (hw : ∀ s t, Untouched s (write s t)) (s : AppState) :
    Untouched s (assignText e v write s).state := by
  unfold assignText
  split_ifs
  · cases v.toText with
    | some t => exact hw s t
    | none => exact untouched_refl s
  · exact hw s _

theorem assignObjects_untouched (e : Engine) (v : JsVal) (s : AppState) :
    Untouched s (assignObjects e v s).state := by
  unfold assignObjects
  split_ifs
  · split
    · split_ifs
      · split
        · exact untouched_refl s
        · exact untouched_refl s
      · split
        · exact untouched_refl s
        · exact untouched_refl s
    · exact untouched_refl s
  · exact untouched_refl s

theorem displayResults_untouched (e : Engine) (s : AppState) (results : ResultsField) :
    Untouched s (displayResults e s results).state := by
  cases results with
  | undefined => exact ⟨rfl, rfl, rfl, rfl, rfl, rfl, rfl, rfl, rfl⟩
  | null => exact ⟨rfl, rfl, rfl, rfl, rfl, rfl, rfl, rfl, rfl⟩
  | object r =>
    unfold displayResults
    refine bind_untouched ?_ (fun s1 => ⟨rfl, rfl, rfl, rfl, rfl, rfl, rfl, rfl, rfl⟩)
    refine bind_untouched ?_ (assignObjects_untouched e _)
    refine bind_untouched ?_ (fun s1 => assignText_untouched e _ _
      (by intro s t; exact ⟨rfl, rfl, rfl, rfl, rfl, rfl, rfl, rfl, rfl⟩) s1)
    refine bind_untouched ?_ (fun s1 => assignText_untouched e _ _
      (by intro s t; exact ⟨rfl, rfl, rfl, rfl, rfl, rfl, rfl, rfl, rfl⟩) s1)
    refine bind_untouched ?_ (fun s1 => assignText_untouched e _ _
      (by intro s t; exact ⟨rfl, rfl, rfl, rfl, rfl, rfl, rfl, rfl, rfl⟩) s1)
    refine untouched_trans ?_ (assignText_untouched e _ _
      (by intro s t; exact ⟨rfl, rfl, rfl, rfl, rfl, rfl, rfl, rfl, rfl⟩) _)
    exact ⟨rfl, rfl, rfl, rfl, rfl, rfl, rfl, rfl, rfl⟩

theorem onAnalyzeSettled_untouched (e : Engine) (s : AppState) (o : FetchOutcome) :
    Untouched s (onAnalyzeSettled e s o) := by
  have key : ∀ out : Outcome, Untouched s out.state →
      Untouched s { (match out with
        | .done s1 => s1
        | .threw s1 m => showError s1 m) with loadingHidden := true } := by
    intro out h
    cases out with
    | done s1 => exact h
    | threw s1 m => exact h
  unfold onAnalyzeSettled
  apply key
  rcases o with m | ⟨ok, m | _ | ⟨err, r⟩⟩
  · exact untouched_refl s
  · cases ok <;> exact untouched_refl s
  · cases ok <;> exact untouched_refl s
  · cases ok
    · exact untouched_refl s
    · exact displayResults_untouched e s r

/-! ## Rendering of the results -/

/-- For an `objects` that is a non-empty string, the objects element is given
markup exactly when the text has a hyphen or a bullet glyph: one `div` per
piece of the text between newlines that has a character other than white
space, in order and unchanged; otherwise it is given the whole text. -/
theorem assignObjects_string (e : Engine) (s : AppState) (objects : String)
    (hne : objects ≠ "") :
    assignObjects e (.str objects) s =
      .done { s with resultObjects :=
        (if '-' ∈ objects.toList ∨ '•' ∈ objects.toList then
          .html (String.join ((objectLines objects).map (fun l => "<div>" ++ l ++ "</div>")))
        else .text objects) } ∧
    (objectLines objects).map String.toList =
      (split '\n' objects.toList).filter (fun l => l.any (fun c => !isJsWhiteSpace c)) ∧
    ['\n'].intercalate (split '\n' objects.toList) = objects.toList ∧
    ∀ l ∈ split '\n' objects.toList, '\n' ∉ l := by
  refine ⟨?_, ?_, intercalate_split _ _, fun l hl => not_mem_of_mem_split _ _ l hl⟩
  · by_cases hc : '-' ∈ objects.data ∨ '•' ∈ objects.data
    · have hc' : (objects.data.contains '-' || objects.data.contains '•') = true := by
        simpa using hc
      simp [assignObjects, JsVal.truthy, hne, callIncludes, includes, objectsMarkup, hc, hc']
    · have hc' : (objects.data.contains '-' || objects.data.contains '•') = false := by
        simpa using hc
      simp [assignObjects, JsVal.truthy, hne, callIncludes, includes, JsVal.toText, hc, hc']
  · simp only [objectLines, List.map_map]
    have : (String.toList ∘ String.mk) = id := by
      funext l
      rfl
    rw [this, List.map_id]
    congr 1
    funext l
    exact truthy_trim l

/-- C3, the failing input: `objects` equal to "- a</div><div>b" is one line, yet
the objects element is given the very markup it is given for the two-line text
"- a\nb", `<div>- a</div><div>b</div>`: the line is not escaped, so the list
rendered for the one line is the two-entry list of the two lines. -/
theorem objects_line_with_markup_splits :
    objectLines "- a</div><div>b" = ["- a</div><div>b"] ∧
    objectLines "- a\nb" = ["- a", "b"] ∧
    (displayResults v8 idlePage (.object (objectsOnly (.str "- a</div><div>b")))).state.resultObjects
      = .html "<div>- a</div><div>b</div>" ∧
    (displayResults v8 idlePage (.object (objectsOnly (.str "- a\nb")))).state.resultObjects
      = .html "<div>- a</div><div>b</div>" ∧
    displayResults v8 idlePage (.object (objectsOnly (.str "- a</div><div>b"))) =
      displayResults v8 idlePage (.object (objectsOnly (.str "- a\nb"))) :=
  ⟨by decide, by decide, by decide, by decide, by decide⟩

/-- Results whose five properties are absent or strings: `displayResults`
returns, a missing or empty property is rendered as 'N/A', a non-empty
caption, summary, mood or story as its text, and objects as `assignObjects`
renders it. -/
theorem displayResults_strings (e : Engine) (s : AppState)
    (caption summary mood story : Option String) (objects : String) (hne : objects ≠ "") :
    let ofOption : Option String → JsVal := fun v =>
      match v with
      | some t => .str t
      | none => .undefined
    ∃ s', displayResults e s (.object
        { caption := ofOption caption, summary := ofOption summary, objects := .str objects,
          mood := ofOption mood, story := ofOption story }) = .done s' ∧
      s'.resultCaption = jsOr caption "N/A" ∧ s'.resultSummary = jsOr summary "N/A" ∧
      s'.resultMood = jsOr mood "N/A" ∧ s'.resultStory = jsOr story "N/A" ∧
      s'.resultObjects =
        (if '-' ∈ objects.toList ∨ '•' ∈ objects.toList then .html (objectsMarkup objects)
        else .text objects) ∧
      s'.resultsHidden = false := by
  intro ofOption
  have htext : ∀ (v : Option String) (write : AppState → String → AppState) (s1 : AppState),
      assignText e (ofOption v) write s1 = .done (write s1 (jsOr v "N/A")) := by
    intro v write s1
    cases v with
    | none => simp [ofOption, assignText, JsVal.truthy, jsOr]
    | some t =>
      by_cases ht : t = ""
      · simp [ofOption, assignText, JsVal.truthy, jsOr, ht]
      · simp [ofOption, assignText, JsVal.truthy, jsOr, ht, JsVal.toText]
  have hobj := (assignObjects_string e
    { s with
      analyzedImageSrc := some (reflectSrc e s.previewImgSrc)
      resultCaption := jsOr caption "N/A"
      resultSummary := jsOr summary "N/A"
      resultMood := jsOr mood "N/A"
      resultStory := jsOr story "N/A" } objects hne).1
  simp only [displayResults, htext, Outcome.bind, hobj]
  exact ⟨_, rfl, by simp [objectsMarkup]⟩

/-- C4, the failing inputs. With `mood` missing and `objects` the number 42 the
call `results.objects.includes` throws after caption and mood were written:
`displayResults` fails, and the analyze handler ends with the error panel
showing the message of the `TypeError`. With `mood` missing and `objects`
equal to "- dog\n\n- tree" the objects element is not given the text as it
is but the markup of a two-entry list. -/
theorem displayResults_objects_number_or_bullets :
    displayResults v8 idlePage (.object
        { caption := .str "c", summary := .undefined, objects := .num "42",
          mood := .undefined, story := .undefined }) =
      .threw { idlePage with
          analyzedImageSrc := some "", resultCaption := "c", resultSummary := "N/A",
          resultMood := "N/A", resultStory := "N/A" }
        "results.objects.includes is not a function" ∧
    (step v8 submitted (.analyzeSettled 0 (.response true (.value none (.object
        { caption := .str "c", summary := .undefined, objects := .num "42",
          mood := .undefined, story := .undefined }))))).errorHidden = false ∧
    (step v8 submitted (.analyzeSettled 0 (.response true (.value none (.object
        { caption := .str "c", summary := .undefined, objects := .num "42",
          mood := .undefined, story := .undefined }))))).resultsHidden = true ∧
    (step v8 submitted (.analyzeSettled 0 (.response true (.value none (.object
        { caption := .str "c", summary := .undefined, objects := .num "42",
          mood := .undefined, story := .undefined }))))).errorMessage =
      "results.objects.includes is not a function" ∧
    (displayResults v8 idlePage (.object
        { caption := .str "A dog", summary := .str "A dog in a park",
          objects := .str "- dog\n\n- tree", mood := .undefined,
          story := .str "Once upon a time..." })).state.resultMood = "N/A" ∧
    (displayResults v8 idlePage (.object
        { caption := .str "A dog", summary := .str "A dog in a park",
          objects := .str "- dog\n\n- tree", mood := .undefined,
          story := .str "Once upon a time..." })).state.resultObjects =
      .html "<div>- dog</div><div>- tree</div>" ∧
    (displayResults v8 idlePage (.object
        { caption := .str "A dog", summary := .str "A dog in a park",
          objects := .str "- dog\n\n- tree", mood := .undefined,
          story := .str "Once upon a time..." })).state.resultObjects ≠
      .text "- dog\n\n- tree" :=
  ⟨by decide, by decide, by decide, by decide, by decide, by decide, by decide⟩

/-! ## Failed submissions -/

/-- A non-success response whose body is not `null`: the error panel is shown,
the loading and results panels are hidden, no result field is written, and the
message is the error text of the body when that is a non-empty string and
'Analysis failed' otherwise. -/
theorem analyze_failure_value (e : Engine) (s : AppState) (error : Option String)
    (results : ResultsField) :
    let s' := onAnalyzeSettled e s (.response false (.value error results))
    s'.errorHidden = false ∧ s'.loadingHidden = true ∧ s'.resultsHidden = true ∧
    s'.errorMessage = jsOr error "Analysis failed" ∧
    s'.resultCaption = s.resultCaption ∧ s'.resultSummary = s.resultSummary ∧
    s'.resultObjects = s.resultObjects ∧ s'.resultMood = s.resultMood ∧
    s'.resultStory = s.resultStory ∧ s'.analyzedImageSrc = s.analyzedImageSrc := by
  simp [onAnalyzeSettled, analyzeTry, showError]

/-- C5, the failing input: a non-success response whose body parses to `null`.
Reading `data.error` throws, so the message shown is the one of the engine's
`TypeError` (here V8's), not 'Analysis failed'. -/
theorem analyze_failure_null_body :
    (∀ (e : Engine) (s : AppState),
      (onAnalyzeSettled e s (.response false .null)).errorMessage =
        e.nullishRead true "error") ∧
    submitted.pendingFetch = [dogJpeg] ∧
    (step v8 submitted (.analyzeSettled 0 (.response false .null))).errorHidden = false ∧
    (step v8 submitted (.analyzeSettled 0 (.response false .null))).errorMessage =
      "Cannot read properties of null (reading 'error')" ∧
    (step v8 submitted (.analyzeSettled 0 (.response false .null))).errorMessage ≠
      "Analysis failed" :=
  ⟨fun _ _ => rfl, by decide, by decide, by decide, by decide⟩

/-! ## New analysis -/

/-- C6, the failing inputs: the new-analysis handler leaves the error panel as it
was. After a submission that failed with 'invalid image' the panel stays
visible; so it does after a submission that succeeded while an error raised in
the meantime (a dropped text file) was on display. -/
theorem newAnalysis_keeps_error_panel :
    (∀ s : AppState, (onNewAnalysisClick s).errorHidden = s.errorHidden) ∧
    (step v8 submitted
      (.analyzeSettled 0 (.response false (.value (some "invalid image") .undefined)))).errorHidden
        = false ∧
    (run v8 submitted
      [.analyzeSettled 0 (.response false (.value (some "invalid image") .undefined)),
       .newAnalysisClick]).errorHidden = false ∧
    (run v8 submitted
      [.analyzeSettled 0 (.response false (.value (some "invalid image") .undefined)),
       .newAnalysisClick]).errorMessage = "invalid image" ∧
    (run v8 submitted
      [.drop (some notesTxt), .analyzeSettled 0 dogResponse]).resultsHidden = false ∧
    (run v8 submitted
      [.drop (some notesTxt), .analyzeSettled 0 dogResponse,
       .newAnalysisClick]).selectedImage = none ∧
    (run v8 submitted
      [.drop (some notesTxt), .analyzeSettled 0 dogResponse,
       .newAnalysisClick]).resultsHidden = true ∧
    (run v8 submitted
      [.drop (some notesTxt), .analyzeSettled 0 dogResponse,
       .newAnalysisClick]).errorHidden = false :=
  ⟨fun _ => rfl, by decide, by decide, by decide, by decide, by decide, by decide,
    by decide⟩

/-! ## Capture -/

/-- When the encoded blob is a blob, the callback of the capture handler ends
with the session terminated. -/
theorem capture_blob_stops_camera (s : AppState) (b : Blob) :
    (onCaptureBlob s (some b)).cameraStream = none ∧
    (∀ i, s.cameraStream = some i → streamLive (onCaptureBlob s (some b)) i = false) ∧
    (onCaptureBlob s (some b)).startCameraBtnHidden = false ∧
    (onCaptureBlob s (some b)).captureBtnHidden = true ∧
    (onCaptureBlob s (some b)).stopCameraBtnHidden = true ∧
    (onCaptureBlob s (some b)).cameraVideoHidden = true := by
  refine ⟨?_, ?_, ?_, ?_, ?_, ?_⟩
  · cases h : s.cameraStream <;> simp [onCaptureBlob, handleImageFile, stopCamera, h]
  · intro i hi
    simp only [onCaptureBlob, handleImageFile, stopCamera, hi, streamLive]
    by_cases hlt : i < s.streams.length
    · simp [List.getD, hlt]
    · simp [List.getD, List.getElem?_set, hlt]
  all_goals rfl

/-- C7, the failing input: an open session and a capture whose encoded blob is
`null`. `handleImageFile` throws after clearing `selectedImage`, `stopCamera`
is not reached: the stream is still the current one, its track is live, no
track was stopped and the camera controls are those of an open session. -/
theorem capture_null_blob_keeps_camera :
    (∀ s : AppState, onCaptureBlob s none = { s with selectedImage := none }) ∧
    capturing.cameraStream = some 0 ∧
    (step v8 capturing (.captureBlob none)).selectedImage = none ∧
    (step v8 capturing (.captureBlob none)).cameraStream = some 0 ∧
    streamLive (step v8 capturing (.captureBlob none)) 0 = true ∧
    (step v8 capturing (.captureBlob none)).stopCalls = 0 ∧
    (step v8 capturing (.captureBlob none)).startCameraBtnHidden = true ∧
    (step v8 capturing (.captureBlob none)).stopCameraBtnHidden = false :=
  ⟨fun _ => rfl, by decide, by decide, by decide, by decide, by decide, by decide,
    by decide⟩

/-! ## Leaving the camera tab -/

/-- After `stopCamera` no stream has a live track, provided only the current
stream had one before. -/
theorem stopCamera_streamLive (s : AppState)
    (h : ∀ i, s.cameraStream ≠ some i → streamLive s i = false) (i : Nat) :
    streamLive (stopCamera s) i = false := by
  cases hc : s.cameraStream with
  | none =>
    have := h i (by simp [hc])
    simpa [stopCamera, hc, streamLive] using this
  | some j =>
    by_cases hij : j = i
    · subst hij
      by_cases hlt : j < s.streams.length
      · simp [stopCamera, hc, streamLive, List.getD, hlt]
      · simp [stopCamera, hc, streamLive, List.getD, List.getElem?_set, hlt]
    · have := h i (by simp [hc, hij])
      simpa [stopCamera, hc, streamLive, List.getD, List.getElem?_set, hij] using this

/-- C9: with a camera session open on stream `i`, a click on a tab other than
'camera' stops every track of the stream and sets `cameraStream` to `null`;
`stopCamera` is idempotent: a second call gives the state of the first and
calls `stop` on no track, and a call with no session open calls `stop` on no
track and changes no stream. -/
theorem tab_switch_releases_camera (e : Engine) (s : AppState) (i : Nat) (tabName : String)
    (h : s.cameraStream = some i) (ht : tabName ≠ "camera") :
    (step e s (.tabClick tabName)).cameraStream = none ∧
    (∀ t ∈ (step e s (.tabClick tabName)).streams.getD i [], t = false) ∧
    ((step e s (.tabClick tabName)).streams.getD i []).length =
      (s.streams.getD i []).length ∧
    (∀ s0 : AppState, stopCamera (stopCamera s0) = stopCamera s0) ∧
    (∀ s0 : AppState, (stopCamera (stopCamera s0)).stopCalls = (stopCamera s0).stopCalls) ∧
    (∀ s0 : AppState, s0.cameraStream = none →
      (stopCamera s0).stopCalls = s0.stopCalls ∧ (stopCamera s0).streams = s0.streams ∧
      stopCamera (stopCamera s0) = stopCamera s0) := by
  have idem : ∀ s0 : AppState, stopCamera (stopCamera s0) = stopCamera s0 := by
    intro s0
    cases hc : s0.cameraStream <;> simp [stopCamera, hc]
  have hstep : step e s (.tabClick tabName) =
      stopCamera { s with activeTabBtns := [tabName], activeTabContents := [tabName ++ "-tab"] } := by
    simp [step, onTabClick, h, ht]
  refine ⟨?_, ?_, ?_, idem, fun s0 => by rw [idem], ?_⟩
  · rw [hstep]
    simp [stopCamera, h]
  · rw [hstep]
    intro t
    by_cases hlt : i < s.streams.length
    · simp [stopCamera, h, List.getD, hlt]
    · simp [stopCamera, h, List.getD, List.getElem?_set, hlt]
  · rw [hstep]
    by_cases hlt : i < s.streams.length
    · simp [stopCamera, h, List.getD, hlt]
    · have hnone : s.streams[i]? = none := List.getElem?_eq_none (by omega)
      simp [stopCamera, h, List.getD, List.getElem?_set, hlt, hnone]
  · intro s0 hc
    refine ⟨?_, ?_, idem s0⟩ <;> simp [stopCamera, hc]

/-- C9 at an open session with one track and a click on the upload tab. -/
theorem tab_switch_releases_camera_witness :
    capturing.cameraStream = some 0 ∧ capturing.streams = [[true]] ∧
    (step v8 capturing (.tabClick "upload")).cameraStream = none ∧
    (∀ t ∈ (step v8 capturing (.tabClick "upload")).streams.getD 0 [], t = false) ∧
    ((step v8 capturing (.tabClick "upload")).streams.getD 0 []).length = 1 :=
  have h := tab_switch_releases_camera v8 capturing 0 "upload" (by decide) (by decide)
  ⟨by decide, by decide, h.1, h.2.1, h.2.2.1⟩

/-! ## Acquisition -/

/-- C10, counterexample: an event handled between `handleImageFile` and the
`onload` callback of its reader. After a drop of `dogJpeg`, a click on clear
and the callback, the preview of the image is shown while no image is
selected; after `dogJpeg` and `treePng` were picked and the reader of
`treePng` finished first, the callback for `dogJpeg` leaves `treePng` selected
under the preview of `dogJpeg`. -/
theorem acquisition_interleaved_not_selected :
    (run v8 (init idlePage)
      [.drop (some dogJpeg), .clearImageClick, .readerLoad 0]).selectedImage = none ∧
    (run v8 (init idlePage)
      [.drop (some dogJpeg), .clearImageClick, .readerLoad 0]).imagePreviewHidden = false ∧
    (run v8 (init idlePage)
      [.drop (some dogJpeg), .clearImageClick, .readerLoad 0]).previewImgSrc
        = some dogJpeg.dataUrl ∧
    ¬ Acquired (run v8 (init idlePage)
      [.drop (some dogJpeg), .clearImageClick, .readerLoad 0]) dogJpeg ∧
    (run v8 (init idlePage)
      [.fileInputChange "dog.jpg" (some dogJpeg), .fileInputChange "tree.png" (some treePng),
       .readerLoad 1]).pendingReads = [dogJpeg] ∧
    (run v8 (init idlePage)
      [.fileInputChange "dog.jpg" (some dogJpeg), .fileInputChange "tree.png" (some treePng),
       .readerLoad 1, .readerLoad 0]).selectedImage = some treePng ∧
    (run v8 (init idlePage)
      [.fileInputChange "dog.jpg" (some dogJpeg), .fileInputChange "tree.png" (some treePng),
       .readerLoad 1, .readerLoad 0]).previewImgSrc = some dogJpeg.dataUrl ∧
    ¬ Acquired (run v8 (init idlePage)
      [.fileInputChange "dog.jpg" (some dogJpeg), .fileInputChange "tree.png" (some treePng),
       .readerLoad 1, .readerLoad 0]) dogJpeg :=
  ⟨by decide, by decide, by decide, fun h => absurd h.1 (by decide),
    by decide, by decide, by decide, fun h => absurd h.1 (by decide)⟩

/-- C10, amended: from every state, each acquisition path followed directly by
the `onload` callback of the reader it started (no other event in between)
leaves the supplied image selected, the preview visible and the results and
error panels hidden: a change of the file input, a drop of an image-typed
file, and a capture whose callback gets a blob. Whenever the `onload`
callback of a pending reader runs, the preview is visible and the results and
error panels are hidden. -/
theorem acquisition_selects_image (e : Engine) (s : AppState) (f : Blob) (value : String) :
    Acquired (run e s
      [.fileInputChange value (some f), .readerLoad s.pendingReads.length]) f ∧
    (startsWith f.type "image/" = true →
      Acquired (run e s [.drop (some f), .readerLoad s.pendingReads.length]) f) ∧
    Acquired (run e s
      [.captureClick, .captureBlob (some f), .readerLoad s.pendingReads.length]) f ∧
    ∀ i, s.pendingReads[i]? = some f →
      (step e s (.readerLoad i)).imagePreviewHidden = false ∧
      (step e s (.readerLoad i)).resultsHidden = true ∧
      (step e s (.readerLoad i)).errorHidden = true := by
  refine ⟨?_, ?_, ?_, ?_⟩
  · simp [run, step, onFileInputChange, handleImageFile, onReaderLoad, Acquired]
  · intro hf
    simp [run, step, onDrop, hf, handleImageFile, onReaderLoad, Acquired]
  · cases hc : s.cameraStream <;>
      simp [run, step, onCaptureClick, onCaptureBlob, handleImageFile, stopCamera, hc,
        onReaderLoad, Acquired]
  · intro i hi
    simp [step, hi, onReaderLoad]

/-- C10, amended, at a drop of `treePng` on the page that shows the error of a
failed submission of `dogJpeg`: another image was selected and the error
panel was visible before. -/
theorem acquisition_selects_image_witness :
    failed.selectedImage = some dogJpeg ∧ failed.errorHidden = false ∧
    failed.imagePreviewHidden = true ∧
    startsWith treePng.type "image/" = true ∧
    Acquired (run v8 failed [.drop (some treePng), .readerLoad 0]) treePng :=
  ⟨by decide, by decide, by decide, by decide,
    (acquisition_selects_image v8 failed treePng "").2.1 (by decide)⟩

/-! ## Submissions in flight -/

theorem stopCamera_pendingFetch (s : AppState) :
    (stopCamera s).pendingFetch = s.pendingFetch := by
  cases h : s.cameraStream <;> simp [stopCamera, h]

theorem onAnalyzeSettled_pendingFetch (e : Engine) (s : AppState) (o : FetchOutcome) :
    (onAnalyzeSettled e s o).pendingFetch = s.pendingFetch :=
  (onAnalyzeSettled_untouched e s o).2.2.2.2.2.2.2.1

/-- An event other than a click on analyze adds no outstanding request. -/
theorem outstanding_step_other (e : Engine) (s : AppState) (ev : Event)
    (hev : ev ≠ .analyzeClick) : outstanding (step e s ev) ≤ outstanding s := by
  cases ev with
  | tabClick tabName =>
    simp only [step, onTabClick, outstanding]
    split_ifs <;> simp [stopCamera_pendingFetch]
  | fileInputChange value file =>
    cases file <;> simp [step, onFileInputChange, handleImageFile, outstanding]
  | drop file =>
    cases file with
    | none => simp [step, onDrop, showError, outstanding]
    | some f =>
      simp only [step, onDrop, outstanding]
      split_ifs <;> simp [handleImageFile, showError]
  | cameraGranted tracks =>
    simp only [step, outstanding]
    split_ifs <;> simp [onCameraGranted]
  | cameraDenied message =>
    simp only [step, outstanding]
    split_ifs <;> simp [onCameraDenied, showError]
  | captureBlob blob =>
    simp only [step, outstanding]
    split_ifs
    · simp
    · cases blob <;> simp [onCaptureBlob, handleImageFile, stopCamera_pendingFetch]
  | stopCameraClick => simp [step, outstanding, stopCamera_pendingFetch]
  | readerLoad i =>
    simp only [step, outstanding]
    split <;> simp [onReaderLoad]
  | analyzeClick => exact absurd rfl hev
  | analyzeSettled i outcome =>
    simp only [step, outstanding]
    split
    · rw [onAnalyzeSettled_pendingFetch]
      simp only [List.length_eraseIdx]
      split_ifs <;> omega
    · simp
  | _ => simp [step, outstanding, onThemeToggleClick, onDragOver, onDragLeave,
      onStartCameraClick, onCaptureClick, clearImage, onRetryClick, onNewAnalysisClick]

/-- A click on analyze adds one outstanding request when an image is selected
and none otherwise. -/
theorem outstanding_step_analyze (e : Engine) (s : AppState) :
    outstanding (step e s .analyzeClick) =
      outstanding s + (if s.selectedImage.isSome then 1 else 0) := by
  cases h : s.selectedImage <;> simp [step, onAnalyzeClick, h, showError, outstanding]

theorem outstanding_run_le (e : Engine) (events : List Event) (s : AppState) :
    outstanding (run e s events) ≤ outstanding s + events.countP Event.isAnalyzeClick := by
  induction events generalizing s with
  | nil => simp [run]
  | cons ev events ih =>
    have h1 := ih (step e s ev)
    have h3 : run e s (ev :: events) = run e (step e s ev) events := rfl
    rw [h3, List.countP_cons]
    by_cases hev : ev = .analyzeClick
    · subst hev
      have h2 := outstanding_step_analyze e s
      have h4 : (if s.selectedImage.isSome then 1 else 0) ≤ 1 := by split_ifs <;> omega
      simp only [Event.isAnalyzeClick, if_true]
      omega
    · have h2 := outstanding_step_other e s ev hev
      have h5 : ev.isAnalyzeClick = false := by
        cases ev <;> first | rfl | exact absurd rfl hev
      simp only [h5, Bool.false_eq_true, if_false]
      omega

/-- C2, counterexample: with the request for `dogJpeg` in flight, a second click on
analyze issues a second request, and so does a click after another image has
been picked and previewed; two requests are then outstanding. -/
theorem second_analyze_issues_second_request :
    outstanding submitted = 1 ∧
    outstanding (step v8 submitted .analyzeClick) = 2 ∧
    (step v8 submitted .analyzeClick).requests = [dogJpeg, dogJpeg] ∧
    outstanding (run v8 submitted
      [.fileInputChange "tree.png" (some treePng), .readerLoad 0, .analyzeClick]) = 2 ∧
    ¬ (∀ events, outstanding (run v8 (init idlePage) events) ≤ 1) :=
  ⟨by decide, by decide, by decide, by decide,
    fun h => absurd (h (submitDog ++ [.analyzeClick])) (by decide)⟩

/-- C2, amended: a click on analyze issues exactly one further request when an
image is selected, also while requests are in flight, and none when no image
is selected; over any sequence of events from the start of the page the
number of outstanding requests never exceeds the number of clicks on analyze. -/
theorem outstanding_le_analyze_clicks (e : Engine) (page : AppState) (events : List Event) :
    outstanding (run e (init page) events) ≤ events.countP Event.isAnalyzeClick ∧
    ∀ s : AppState,
      outstanding (step e s .analyzeClick) =
        outstanding s + (if s.selectedImage.isSome then 1 else 0) ∧
      (step e s .analyzeClick).requests.length =
        s.requests.length + (if s.selectedImage.isSome then 1 else 0) := by
  constructor
  · have h := outstanding_run_le e events (init page)
    have h0 : outstanding (init page) = 0 := rfl
    omega
  · intro s
    cases h : s.selectedImage <;> simp [step, onAnalyzeClick, h, showError, outstanding]

/-! ## One camera session at a time -/

theorem cameraInv_of_eq {s s' : AppState} (h : CameraInv s)
    (h1 : s'.cameraStream = s.cameraStream) (h2 : s'.streams = s.streams)
    (h3 : s'.pendingCamera = s.pendingCamera) : CameraInv s' := by
  refine ⟨?_, ?_, ?_⟩
  · intro i hi
    have := h.stopped i (by rwa [h1] at hi)
    simpa [streamLive, h2] using this
  · rw [h3]; exact h.pending_le
  · rw [h3, h1]; exact h.idle

theorem cameraInv_stopCamera {s : AppState} (h : CameraInv s) : CameraInv (stopCamera s) := by
  have hp : (stopCamera s).pendingCamera = s.pendingCamera := by
    cases hc : s.cameraStream <;> simp [stopCamera, hc]
  have hn : (stopCamera s).cameraStream = none := by
    cases hc : s.cameraStream <;> simp [stopCamera, hc]
  refine ⟨fun i _ => stopCamera_streamLive s h.stopped i, ?_, fun _ => hn⟩
  rw [hp]; exact h.pending_le

theorem cameraInv_granted {s : AppState} (h : CameraInv s) (hp : s.pendingCamera ≠ 0)
    (tracks : Nat) :
    CameraInv (onCameraGranted { s with pendingCamera := s.pendingCamera - 1 } tracks) := by
  have h1 : s.pendingCamera = 1 := by have := h.pending_le; omega
  have hnone := h.idle h1
  refine ⟨?_, ?_, ?_⟩
  · intro i hi
    have hne : i ≠ s.streams.length := by
      intro hh
      apply hi
      simp [onCameraGranted, hh]
    have hold := h.stopped i (by simp [hnone])
    by_cases hlt : i < s.streams.length
    · simpa [onCameraGranted, streamLive, List.getD, List.getElem?_append_left hlt]
        using hold
    · have hnone2 : (s.streams ++ [List.replicate tracks true])[i]? = none :=
        List.getElem?_eq_none (by simp; omega)
      simp [onCameraGranted, streamLive, List.getD, hnone2]
  · simp [onCameraGranted, h1]
  · simp [onCameraGranted, h1]

/-- One event keeps the camera invariant, when a click on the start-camera
button occurs only with no session open and no request pending. -/
theorem cameraInv_step (e : Engine) {s : AppState} (h : CameraInv s) (ev : Event)
    (hg : ev = .startCameraClick → s.cameraStream = none ∧ s.pendingCamera = 0) :
    CameraInv (step e s ev) := by
  cases ev with
  | tabClick tabName =>
    simp only [step, onTabClick]
    split_ifs
    · exact cameraInv_stopCamera (cameraInv_of_eq h rfl rfl rfl)
    · exact cameraInv_of_eq h rfl rfl rfl
  | startCameraClick =>
    obtain ⟨hc, hp⟩ := hg rfl
    refine ⟨?_, ?_, ?_⟩
    · intro i hi
      have := h.stopped i (by simpa [step, onStartCameraClick] using hi)
      simpa [step, onStartCameraClick, streamLive] using this
    · simp [step, onStartCameraClick, hp]
    · intro _
      simpa [step, onStartCameraClick] using hc
  | cameraGranted tracks =>
    simp only [step]
    split_ifs with hp
    · exact h
    · exact cameraInv_granted h hp tracks
  | cameraDenied message =>
    simp only [step]
    split_ifs with hp
    · exact h
    · have h1 : s.pendingCamera = 1 := by have := h.pending_le; omega
      refine ⟨?_, ?_, ?_⟩
      · intro i hi
        have := h.stopped i (by simpa [onCameraDenied, showError] using hi)
        simpa [onCameraDenied, showError, streamLive] using this
      · simp [onCameraDenied, showError, h1]
      · simp [onCameraDenied, showError, h1]
  | captureBlob blob =>
    simp only [step]
    split_ifs with hp
    · exact h
    · cases blob with
      | none => exact cameraInv_of_eq h rfl rfl rfl
      | some b => exact cameraInv_stopCamera (cameraInv_of_eq h rfl rfl rfl)
  | stopCameraClick => exact cameraInv_stopCamera h
  | fileInputChange value file => cases file <;> exact cameraInv_of_eq h rfl rfl rfl
  | drop file =>
    cases file with
    | none => exact cameraInv_of_eq h rfl rfl rfl
    | some f =>
      simp only [step, onDrop]
      split_ifs <;> exact cameraInv_of_eq h rfl rfl rfl
  | readerLoad i =>
    simp only [step]
    split
    · exact cameraInv_of_eq h rfl rfl rfl
    · exact h
  | analyzeClick =>
    simp only [step, onAnalyzeClick]
    split <;> exact cameraInv_of_eq h rfl rfl rfl
  | analyzeSettled i outcome =>
    simp only [step]
    split
    · have hu := onAnalyzeSettled_untouched e
        { s with pendingFetch := s.pendingFetch.eraseIdx i } outcome
      exact cameraInv_of_eq h hu.2.1 hu.2.2.1 hu.2.2.2.2.1
    · exact h
  | _ => exact cameraInv_of_eq h rfl rfl rfl

theorem cameraInv_run (e : Engine) (events : List Event) {s : AppState} (h : CameraInv s)
    (hx : exclusive e s events = true) : CameraInv (run e s events) := by
  induction events generalizing s with
  | nil => exact h
  | cons ev events ih =>
    have h3 : run e s (ev :: events) = run e (step e s ev) events :=
      rfl
    rw [h3]
    cases ev with
    | startCameraClick =>
      simp only [exclusive, Bool.and_eq_true, Option.isNone_iff_eq_none, beq_iff_eq] at hx
      exact ih (cameraInv_step e h _ (fun _ => hx.1)) hx.2
    | _ =>
      simp only [exclusive] at hx
      exact ih (cameraInv_step e h _ (fun hh => by cases hh)) hx

/-- C8, counterexample: a second click on start camera, after the first session
opened or before the first request was granted, leaves two streams with a
live track, of which only the second is the current one. -/
theorem second_start_leaves_two_sessions :
    (run v8 (init idlePage)
      [.startCameraClick, .cameraGranted 1, .startCameraClick, .cameraGranted 1]).cameraStream
        = some 1 ∧
    streamLive (run v8 (init idlePage)
      [.startCameraClick, .cameraGranted 1, .startCameraClick, .cameraGranted 1]) 0 = true ∧
    streamLive (run v8 (init idlePage)
      [.startCameraClick, .cameraGranted 1, .startCameraClick, .cameraGranted 1]) 1 = true ∧
    ¬ SingleSession (run v8 (init idlePage)
      [.startCameraClick, .cameraGranted 1, .startCameraClick, .cameraGranted 1]) ∧
    ¬ SingleSession (run v8 (init idlePage)
      [.startCameraClick, .startCameraClick, .cameraGranted 1, .cameraGranted 1]) :=
  ⟨by decide, by decide, by decide,
    fun h => absurd (h 0 (by decide)) (by decide),
    fun h => absurd (h 0 (by decide)) (by decide)⟩

/-- C8, amended: over any sequence of events from the start of the page in which
start camera is clicked only while no session is open and no camera request
is pending, every stream obtained so far is the current `cameraStream` or has
all its tracks stopped. -/
theorem single_session_when_exclusive (e : Engine) (page : AppState) (events : List Event)
    (h : exclusive e (init page) events = true) :
    SingleSession (run e (init page) events) := by
  have h0 : CameraInv (init page) := by
    refine ⟨fun i _ => ?_, ?_, ?_⟩
    · simp [streamLive, init, initTheme]
    · simp [init, initTheme]
    · simp [init, initTheme]
  have hinv := cameraInv_run e events h0 h
  intro i _
  by_cases hc : (run e (init page) events).cameraStream = some i
  · exact Or.inl hc
  · exact Or.inr (hinv.stopped i hc)

/-- C8, amended, at a run that opens a session, stops it and opens another. -/
theorem single_session_when_exclusive_witness :
    exclusive v8 (init idlePage)
      [.startCameraClick, .cameraGranted 1, .stopCameraClick, .startCameraClick,
       .cameraGranted 2] = true ∧
    (run v8 (init idlePage)
      [.startCameraClick, .cameraGranted 1, .stopCameraClick, .startCameraClick,
       .cameraGranted 2]).streams = [[false], [true, true]] ∧
    SingleSession (run v8 (init idlePage)
      [.startCameraClick, .cameraGranted 1, .stopCameraClick, .startCameraClick,
       .cameraGranted 2]) :=
  ⟨by decide, by decide, single_session_when_exclusive v8 idlePage _ (by decide)⟩

end ImageStory
